import Mathlib

/-!
Verification development for the Orbit signal-matching core:
the scoring library and cluster finder (OrbitServer/signals/math.py),
the signal/pod data layer (OrbitServer/signals/models.py) and the
lifecycle service (OrbitServer/signals/service.py).

Modelling conventions:
* Python floats are modelled as exact rationals; Python round(x, 4)
  (round half to even) is modelled exactly over the rationals.  The
  Euclidean vibe scores round values of the form 1 - sqrt s / sqrt n,
  which are irrational; their rounding to 4 decimals is computed exactly
  with integer square roots (see roundHEsubSqrt).
* Python dicts are modelled as insertion-ordered association lists;
  Python dict/list/str truthiness (empty is falsy) is modelled explicitly.
* Timestamps are modelled as integers (seconds); a day is 86400.
-/

/- The Batteries rational operations are irreducible by default, which
blocks the elaborator-side evaluation used by the decide tactic; restore
the default reducibility so concrete scores evaluate. -/
attribute [local semireducible] Rat.mul Rat.add Rat.inv Rat.sub

/-- Round half to even (the rounding Python round uses) of a rational. -/
def roundHE (x : ℚ) : ℤ :=
  if x - ⌊x⌋ < 1/2 then ⌊x⌋
  else if (1 : ℚ)/2 < x - ⌊x⌋ then ⌊x⌋ + 1
  else if ⌊x⌋ % 2 = 0 then ⌊x⌋ else ⌊x⌋ + 1

/-- Python round(x, 4) on an exactly-represented rational value. -/
def round4 (x : ℚ) : ℚ := (roundHE (x * 10000) : ℚ) / 10000

/-- Fuel-carrying integer square root by the digit-pair recurrence
(sqrt n is derived from sqrt (n / 4)); the fuel only bounds the
recursion depth.  Unlike Nat.sqrt this definition is structurally
recursive, so it evaluates inside the kernel. -/
def sqrtAux : ℕ → ℕ → ℕ
  | 0, n => n
  | fuel + 1, n =>
    if n < 2 then n
    else
      let s := 2 * sqrtAux fuel (n / 4)
      if (s + 1) * (s + 1) ≤ n then s + 1 else s

/-- Integer square root (the floor of the real square root). -/
def natSqrt (n : ℕ) : ℕ := sqrtAux n n

/-- sqrtAux computes the integer square root when the fuel is at least
the argument. -/
theorem sqrtAux_isSqrt :
    ∀ fuel n, n ≤ fuel →
      sqrtAux fuel n * sqrtAux fuel n ≤ n ∧
        n < (sqrtAux fuel n + 1) * (sqrtAux fuel n + 1) := by
  intro fuel
  induction fuel with
  | zero => intro n hn; interval_cases n; simp [sqrtAux]
  | succ m ih =>
    intro n hn
    by_cases h2 : n < 2
    · interval_cases n <;> simp [sqrtAux]
    · have hrec : n / 4 ≤ m := by omega
      obtain ⟨hl, hu⟩ := ih (n / 4) hrec
      have h4 : 4 * (n / 4) ≤ n := by omega
      have h4u : n < 4 * (n / 4) + 4 := by omega
      simp only [sqrtAux, if_neg h2]
      set s0 := sqrtAux m (n / 4) with hs0
      have hlow : (2 * s0) * (2 * s0) ≤ n := by nlinarith
      have hhigh : n < (2 * s0 + 2) * (2 * s0 + 2) := by nlinarith
      by_cases hc : (2 * s0 + 1) * (2 * s0 + 1) ≤ n
      · rw [if_pos hc]; exact ⟨hc, by nlinarith⟩
      · rw [if_neg hc]; exact ⟨hlow, by omega⟩

/-- natSqrt is the integer square root. -/
theorem natSqrt_isSqrt (n : ℕ) :
    natSqrt n * natSqrt n ≤ n ∧ n < (natSqrt n + 1) * (natSqrt n + 1) :=
  sqrtAux_isSqrt n n le_rfl

/-- Round half to even of the real number (P - sqrt K) / D (for D > 0),
computed with integer arithmetic only.  With s = natSqrt K we have
s ≤ sqrt K < s + 1, so the floor f of (P - sqrt K) / D is either
g = (P - s).fdiv D or g - 1, decided by squaring the inequality
g * D ≤ P - sqrt K.  The half-point test (P - sqrt K) / D vs f + 1/2
reduces to comparing 4 * K with T^2 where T = 2 * (P - f * D) - D. -/
def roundHEsubSqrt (P : ℤ) (K : ℕ) (D : ℕ) : ℤ :=
  let s : ℤ := natSqrt K
  let g : ℤ := (P - s).fdiv D
  let f : ℤ := if 0 ≤ P - g * D ∧ (K : ℤ) ≤ (P - g * D)^2 then g else g - 1
  let T : ℤ := 2 * (P - f * D) - D
  if 0 ≤ T ∧ 4 * (K : ℤ) < T^2 then f + 1
  else if 0 ≤ T ∧ 4 * (K : ℤ) = T^2 then (if f % 2 = 0 then f else f + 1)
  else f

/-- Python round((P - sqrt K) / D, 4), exactly:
10^4 * (P - sqrt K) / D = (10^4 P - sqrt (10^8 K)) / D. -/
def round4subSqrt (P : ℤ) (K : ℕ) (D : ℕ) : ℚ :=
  ((roundHEsubSqrt (10000 * P) (10000^2 * K) D : ℤ) : ℚ) / 10000

/-- Python round(1 - sqrt s / sqrt n, 4), exactly: writing q = s / n in
lowest terms as num / den, 1 - sqrt q = (den - sqrt (num * den)) / den. -/
def round4OneMinusSqrtDiv (s : ℚ) (n : ℕ) : ℚ :=
  let q : ℚ := s / (n : ℚ)
  round4subSqrt (q.den : ℤ) (q.num.toNat * q.den) q.den

/-! ## Scoring library (OrbitServer/signals/math.py) -/

/-- The three personality slider dimensions stored in every profile. -/
def PERSONALITY_KEYS : List String :=
  ["introvert_extrovert", "spontaneous_planner", "active_relaxed"]

/-- All 8 quiz-based vibe check dimensions. -/
def VIBE_CHECK_KEYS : List String :=
  ["introvert_extrovert", "spontaneous_planner", "active_relaxed",
   "adventurous_cautious", "expressive_reserved", "independent_collaborative",
   "sensing_intuition", "thinking_feeling"]

/-- MBTI_BEST_FRIENDS table from math.py (verbatim). -/
def MBTI_BEST_FRIENDS : List (String × List String) :=
  [("ISTJ", ["ISTJ", "INTP"]),
   ("ISFJ", ["ISFJ", "INFP"]),
   ("INFJ", ["INFJ", "ENFP"]),
   ("INTJ", ["INTJ", "INTP"]),
   ("ISTP", ["ISTP", "ISFP"]),
   ("ISFP", ["ISFP", "ISTP"]),
   ("INFP", ["INFP", "ISFJ"]),
   ("INTP", ["INTP", "ISTJ"]),
   ("ESTP", ["ESTP", "ESFP"]),
   ("ESFP", ["ESFP", "ESTP"]),
   ("ENFP", ["ENFP", "INFJ"]),
   ("ENTP", ["ENTP", "INTP"]),
   ("ESTJ", ["ESTJ", "ISTJ"]),
   ("ESFJ", ["ESFJ", "ISFJ"]),
   ("ENFJ", ["ENFJ", "ENFP"]),
   ("ENTJ", ["ENTJ", "INTJ"])]

/-- Python dict.get(k, default) on a string-keyed numeric dict. -/
def dictGet (d : List (String × ℚ)) (k : String) (dflt : ℚ) : ℚ :=
  match d.find? (fun e => e.1 == k) with
  | some e => e.2
  | none => dflt

/-- squared_sum of slider differences over the given dimension keys,
with missing keys defaulting to 0.5 (math.py lines 84-88 / 103-107). -/
def squaredSum (keys : List String) (a b : List (String × ℚ)) : ℚ :=
  (keys.map (fun k => (dictGet a k (1/2) - dictGet b k (1/2))^2)).sum

/-- Python truthiness of an optional dict argument: None and the empty
dict are falsy. -/
def personTruthy : Option (List (String × ℚ)) → Bool
  | none => false
  | some d => !d.isEmpty

/-- interest_score (math.py lines 65-72): Jaccard similarity on the two
interest lists, with None treated as the empty list and 0.0 when the
union is empty. -/
def interest_score (interests_a interests_b : Option (List String)) : ℚ :=
  let A := (interests_a.getD []).toFinset
  let B := (interests_b.getD []).toFinset
  if A ∪ B = ∅ then 0
  else ((A ∩ B).card : ℚ) / ((A ∪ B).card : ℚ)

/-- vibe_score (math.py lines 75-91): 1 - normalised Euclidean distance
over the 3 sliders, rounded to 4 decimals; 0.0 when either personality
argument is falsy (None or the empty dict). -/
def vibe_score (personality_a personality_b : Option (List (String × ℚ))) : ℚ :=
  if personTruthy personality_a = false ∨ personTruthy personality_b = false then 0
  else
    round4OneMinusSqrtDiv
      (squaredSum PERSONALITY_KEYS (personality_a.getD []) (personality_b.getD [])) 3

/-- A vibe_check record: the quiz dimensions plus the optional quiz-derived
MBTI type (in Python one heterogeneous dict; here the numeric entries and
the mbti_type entry are split, preserving dict truthiness). -/
structure VibeCheck where
  dims : List (String × ℚ)
  mbti_type : Option String
deriving DecidableEq

/-- The empty vibe_check mapping (falsy in Python). -/
def emptyVC : VibeCheck := { dims := [], mbti_type := none }

/-- Python truthiness of an optional vibe_check dict. -/
def vcTruthy : Option VibeCheck → Bool
  | none => false
  | some vc => !vc.dims.isEmpty || vc.mbti_type.isSome

/-- vibe_check_score (math.py lines 94-110): same formula over the 8 quiz
dimensions; 0.0 when either vibe_check argument is falsy. -/
def vibe_check_score (vc_a vc_b : Option VibeCheck) : ℚ :=
  if vcTruthy vc_a = false ∨ vcTruthy vc_b = false then 0
  else
    round4OneMinusSqrtDiv
      (squaredSum VIBE_CHECK_KEYS (vc_a.getD emptyVC).dims (vc_b.getD emptyVC).dims) 8

/-- Python truthiness of an optional string (None and the empty string
are falsy). -/
def strTruthy : Option String → Bool
  | none => false
  | some s => !s.isEmpty

/-- Python str.upper() on one character, for the ASCII strings the MBTI
codes are drawn from (String.toUpper is equivalent on ASCII but is not
kernel-reducible). -/
def upChar (c : Char) : Char :=
  if 97 ≤ c.toNat ∧ c.toNat ≤ 122 then Char.ofNat (c.toNat - 32) else c

/-- Python str.upper() on ASCII strings. -/
def pyUpper (s : String) : String := String.mk (s.data.map upChar)

/-- MBTI_BEST_FRIENDS.get(t, []). -/
def mbtiFriends (t : String) : List String :=
  match MBTI_BEST_FRIENDS.find? (fun e => e.1 == t) with
  | some e => e.2
  | none => []

/-- mbti_compatibility_bonus (math.py lines 113-140). -/
def mbti_compatibility_bonus (mbti_a mbti_b : Option String) : ℚ :=
  if strTruthy mbti_a = false ∨ strTruthy mbti_b = false then 0
  else
    let ma := pyUpper (mbti_a.getD "")
    let mb := pyUpper (mbti_b.getD "")
    if mb ∈ mbtiFriends ma ∨ ma ∈ mbtiFriends mb then 1/10
    else if ma = mb then 1/20
    else 0

/-- A profile record, with the fields the signal core reads.  Absent
Python keys are None here; get_profile returns a dict so every field is
optional. -/
structure Profile where
  name : Option String
  interests : Option (List String)
  personality : Option (List (String × ℚ))
  vibe_check : Option VibeCheck
deriving DecidableEq

/-- weighted_match_score (math.py lines 143-177): 0.40 * interest +
0.60 * vibe + mbti bonus, capped at 1.0 and rounded to 4 decimals.
The vibe component prefers quiz vibe_check data when both profiles carry
a truthy vibe_check, else falls back to the 3-slider personality. -/
def weighted_match_score (profile_a profile_b : Profile) : ℚ :=
  let i_score := interest_score profile_a.interests profile_b.interests
  if (vcTruthy profile_a.vibe_check && vcTruthy profile_b.vibe_check) = true then
    let v_score := vibe_check_score profile_a.vibe_check profile_b.vibe_check
    let bonus := mbti_compatibility_bonus
      (profile_a.vibe_check.getD emptyVC).mbti_type
      (profile_b.vibe_check.getD emptyVC).mbti_type
    round4 (min 1 (2/5 * i_score + 3/5 * v_score + bonus))
  else
    round4 (min 1 (2/5 * i_score + 3/5 * vibe_score profile_a.personality profile_b.personality))

/-! ## Cluster finder (math.py lines 182-254) -/

/-- Dict lookup in the profile pool (Python all_profiles[uid] /
`uid in all_profiles`).  The pool is an insertion-ordered association
list mirroring a Python dict with distinct keys. -/
def poolFind (pool : List (ℕ × Profile)) (uid : ℕ) : Option Profile :=
  (pool.find? (fun p => p.1 == uid)).map (fun p => p.2)

/-- The pairwise score cache of math.py lines 222-230: for keys present in
the pool this is weighted_match_score of the two profiles (cached
symmetrically in the source), and 0.0 for missing pairs, mirroring
scores.get((cid, m), 0.0). -/
def pairScore (pool : List (ℕ × Profile)) (x y : ℕ) : ℚ :=
  match poolFind pool x, poolFind pool y with
  | some px, some py => weighted_match_score px py
  | _, _ => 0

/-- Average pairwise score of candidate cid against the current cluster
(math.py line 241). -/
def avgScore (pool : List (ℕ × Profile)) (cluster : List ℕ) (cid : ℕ) : ℚ :=
  (cluster.map (fun m => pairScore pool cid m)).sum / (cluster.length : ℚ)

/-- The inner argmax loop of math.py lines 238-244: best_candidate starts
at None with best_avg -1.0 and is replaced on strict improvement, so the
first candidate (in iteration order) attaining the maximum wins. -/
def bestCandidate (pool : List (ℕ × Profile)) (cluster : List ℕ)
    (remaining : List ℕ) : Option ℕ × ℚ :=
  remaining.foldl
    (fun acc cid =>
      let avg := avgScore pool cluster cid
      if acc.2 < avg then (some cid, avg) else acc)
    (none, -1)

/-- The greedy expansion loop of math.py lines 237-248.  The fuel
argument bounds the iteration count; it is called with the length of the
remaining list, which the loop can never exceed since every iteration
removes the chosen member from remaining.  Python iterates the remaining
candidates as a set (unordered); here they are kept in descending-score
order, which fixes the source's unspecified tie-break order. -/
def greedyExpand (pool : List (ℕ × Profile)) (min_score : ℚ) (cluster_size : ℕ) :
    ℕ → List ℕ → List ℕ → List ℕ
  | 0, cluster, _ => cluster
  | fuel + 1, cluster, remaining =>
    if cluster.length < cluster_size ∧ remaining ≠ [] then
      match bestCandidate pool cluster remaining with
      | (some c, bestAvg) =>
          if bestAvg < min_score then cluster
          else greedyExpand pool min_score cluster_size fuel
            (cluster ++ [c]) (remaining.erase c)
      | (none, _) => cluster
    else cluster

/-- The candidate list of math.py lines 208-214: every pool member other
than the requester whose score against the requester is at least
min_score, paired with that score, in pool iteration order. -/
def clusterCandidates (user_id : ℕ) (pool : List (ℕ × Profile))
    (requester : Profile) (min_score : ℚ) : List (ℕ × ℚ) :=
  ((pool.filter (fun p => !(p.1 == user_id))).map
      (fun p => (p.1, weighted_match_score requester p.2))).filter
    (fun c => min_score ≤ c.2)

/-- The tail of find_signal_cluster (math.py lines 232-254): seed the
cluster with the requester and the best candidate, expand greedily over
the remaining candidates, and require at least 3 members. -/
def clusterFrom (pool : List (ℕ × Profile)) (min_score : ℚ) (cluster_size : ℕ)
    (user_id best_id : ℕ) (remaining : List ℕ) : List ℕ :=
  let cluster := greedyExpand pool min_score cluster_size
    remaining.length [user_id, best_id] remaining
  if cluster.length < 3 then [] else cluster

/-- find_signal_cluster (math.py lines 182-254).  The empty-candidates
early return and the match on the sorted candidate list coincide because
sorting preserves length.  Python sorts with the stable list.sort
(descending by score); insertionSort with this reflexive relation is the
same stable descending sort.  remaining models
set(candidate_ids) - \x7bbest\x7d for the distinct candidate ids. -/
def find_signal_cluster (user_id : ℕ) (all_profiles : List (ℕ × Profile))
    (min_score : ℚ) (cluster_size : ℕ) : List ℕ :=
  match poolFind all_profiles user_id with
  | none => []
  | some requester =>
    match List.insertionSort (fun x y : ℕ × ℚ => y.2 ≤ x.2)
        (clusterCandidates user_id all_profiles requester min_score) with
    | [] => []
    | best :: rest =>
      clusterFrom all_profiles min_score cluster_size user_id best.1
        ((rest.map (fun c => c.1)).filter (fun i => !(i == best.1)))

/-! ## Signal / Pod data layer (OrbitServer/signals/models.py) -/

/-- Seconds in a day; timestamps are integer instants. -/
def daySecs : ℤ := 86400

def SIGNAL_TTL_DAYS : ℤ := 7

def POD_TTL_DAYS : ℤ := 7

/-- A Signal entity (models.py create_signal, lines 35-57). -/
structure Signal where
  id : String
  creator_id : ℕ
  target_user_ids : List ℕ
  accepted_user_ids : List ℕ
  created_at : ℤ
  expires_at : ℤ
  status : String
deriving DecidableEq

/-- A Pod entity (models.py create_pod_from_signal, lines 113-133). -/
structure Pod where
  id : String
  members : List ℕ
  created_at : ℤ
  expires_at : ℤ
  revealed : Bool
  signal_id : String
deriving DecidableEq

/-- create_signal (models.py lines 35-57): fresh id supplied by the
caller, empty accepted set, pending status, 7-day TTL. -/
def create_signal (creator_id : ℕ) (target_user_ids : List ℕ)
    (now : ℤ) (signal_id : String) : Signal :=
  { id := signal_id
    creator_id := creator_id
    target_user_ids := target_user_ids
    accepted_user_ids := []
    created_at := now
    expires_at := now + SIGNAL_TTL_DAYS * daySecs
    status := "pending" }

/-- The mutation performed by models.py accept_signal (lines 77-99) on an
existing entity: append the user to accepted_user_ids unless already
present, then mark the signal accepted when the accepted set has become a
superset of the target set. -/
def db_accept_signal (s : Signal) (user_id : ℕ) : Signal :=
  let accepted :=
    if user_id ∈ s.accepted_user_ids then s.accepted_user_ids
    else s.accepted_user_ids ++ [user_id]
  { s with
    accepted_user_ids := accepted
    status :=
      if s.target_user_ids.all (fun t => decide (t ∈ accepted)) then "accepted"
      else s.status }

/-- create_pod_from_signal (models.py lines 113-133): copies the target
list as membership, revealed false, 7-day TTL. -/
def create_pod_from_signal (signal : Signal) (now : ℤ) (pod_id : String) : Pod :=
  { id := pod_id
    members := signal.target_user_ids
    created_at := now
    expires_at := now + POD_TTL_DAYS * daySecs
    revealed := false
    signal_id := signal.id }

/-- The Signal/Pod store (the Datastore contents this core touches). -/
structure Store where
  signals : List Signal
  pods : List Pod
deriving DecidableEq

/-- get_signal (models.py lines 60-64): lookup by id. -/
def get_signal (st : Store) (signal_id : String) : Option Signal :=
  st.signals.find? (fun s => s.id == signal_id)

/-- The most recent record by created_at among a filtered list, i.e. a
query ordered by -created_at fetched with limit 1.  The fold keeps the
earliest listed record on created_at ties (the order of such a Datastore
query on ties is unspecified). -/
def mostRecentBy {α : Type} (key : α → ℤ) (l : List α) : Option α :=
  l.foldl
    (fun acc x =>
      match acc with
      | none => some x
      | some y => if key y < key x then some x else acc)
    none

/-- get_signal_for_user (models.py lines 67-74): most recent pending
signal whose target list contains the user. -/
def get_signal_for_user (st : Store) (user_id : ℕ) : Option Signal :=
  mostRecentBy (fun s => s.created_at)
    (st.signals.filter
      (fun s => decide (user_id ∈ s.target_user_ids) && (s.status == "pending")))

/-- get_active_pod (models.py lines 136-142): most recent pod whose
member list contains the user (no expiry filter in the query). -/
def get_active_pod (st : Store) (user_id : ℕ) : Option Pod :=
  mostRecentBy (fun p => p.created_at)
    (st.pods.filter (fun p => decide (user_id ∈ p.members)))

/-! ## Lifecycle service (OrbitServer/signals/service.py)

The member-preview enrichment (_get_member_profiles) only decorates the
returned records with profile data from the external profile store and is
not modelled; the payload carries the Signal/Pod record the view is built
from.  Fresh entity ids (uuid4 in the source) are passed in by the
caller. -/

/-- _is_expired (service.py lines 30-39) on an entity that carries an
expires_at value: utcnow() > expires_at. -/
def isExpiredAt (expires_at : ℤ) (now : ℤ) : Bool := expires_at < now

/-- The payload variants of service.py (check_for_signal and
accept_signal). -/
inductive LifecycleView where
  | hasPod (pod : Pod) (revealed : Bool)
  | hasSignal (signal : Signal)
  | newSignal (signal : Signal)
  | noMatch
deriving DecidableEq

/-- accept_signal (service.py lines 149-197).  Returns the (data, error)
pair together with the updated store.  The source's dead
"Failed to accept signal" branch (models.accept_signal returns None only
when the entity vanished between the two reads) has no counterpart in
this sequential model. -/
def accept_signal (st : Store) (user_id : ℕ) (signal_id : String)
    (now : ℤ) (new_pod_id : String) :
    (Option LifecycleView × Option String) × Store :=
  match get_signal st signal_id with
  | none => ((none, some "Signal not found"), st)
  | some signal =>
    if user_id ∉ signal.target_user_ids then
      ((none, some "You are not part of this signal"), st)
    else if isExpiredAt signal.expires_at now = true then
      ((none, some "This signal has expired"), st)
    else if signal.status = "accepted" then
      ((none, some "This signal has already been fully accepted"), st)
    else
      let updated := db_accept_signal signal user_id
      let st1 : Store :=
        { st with
          signals := st.signals.map (fun t => if t.id = signal_id then updated else t) }
      if signal.target_user_ids.all (fun t => decide (t ∈ updated.accepted_user_ids)) then
        let pod := create_pod_from_signal updated now new_pod_id
        ((some (.hasPod pod false), none), { st1 with pods := st1.pods ++ [pod] })
      else
        ((some (.hasSignal updated), none), st1)

/-- Python truthiness of the optional profile name. -/
def nameTruthy : Option String → Bool
  | none => false
  | some s => !s.isEmpty

/-- The profile store: uid to profile, insertion ordered. -/
def get_profile (profiles : List (ℕ × Profile)) (uid : ℕ) : Option Profile :=
  (profiles.find? (fun p => p.1 == uid)).map (fun p => p.2)

/-- _get_available_profiles (service.py lines 62-84) at its only call
site (no exclusions): all profiles that have a truthy name. -/
def get_available_profiles (profiles : List (ℕ × Profile)) : List (ℕ × Profile) :=
  profiles.filter (fun p => nameTruthy p.2.name)

/-- Steps 3 of check_for_signal (service.py lines 127-146): build the
candidate pool, insert the requester if filtered out, run the cluster
finder, and either report no_match or create and store a new Signal. -/
def check_cluster_phase (st : Store) (profiles : List (ℕ × Profile))
    (user_id : ℕ) (profile : Profile) (now : ℤ) (new_signal_id : String) :
    (Option LifecycleView × Option String) × Store :=
  let avail := get_available_profiles profiles
  let pool :=
    if (poolFind avail user_id).isSome then avail else avail ++ [(user_id, profile)]
  let cluster := find_signal_cluster user_id pool (7/10) 4
  if cluster.isEmpty then ((some .noMatch, none), st)
  else
    let signal := create_signal user_id cluster now new_signal_id
    ((some (.newSignal signal), none), { st with signals := st.signals ++ [signal] })

/-- Step 2 of check_for_signal (service.py lines 117-125): an unexpired
pending signal targeting the user, else fall through to cluster search. -/
def check_signal_phase (st : Store) (profiles : List (ℕ × Profile))
    (user_id : ℕ) (profile : Profile) (now : ℤ) (new_signal_id : String) :
    (Option LifecycleView × Option String) × Store :=
  match get_signal_for_user st user_id with
  | some signal =>
    if isExpiredAt signal.expires_at now = false then
      ((some (.hasSignal signal), none), st)
    else check_cluster_phase st profiles user_id profile now new_signal_id
  | none => check_cluster_phase st profiles user_id profile now new_signal_id

/-- check_for_signal (service.py lines 89-146): complete-profile guard,
then active pod, then pending signal, then cluster search. -/
def check_for_signal (st : Store) (profiles : List (ℕ × Profile))
    (user_id : ℕ) (now : ℤ) (new_signal_id : String) :
    (Option LifecycleView × Option String) × Store :=
  match get_profile profiles user_id with
  | none => ((none, some "Complete your profile before discovering signals"), st)
  | some profile =>
    if nameTruthy profile.name = false then
      ((none, some "Complete your profile before discovering signals"), st)
    else
      match get_active_pod st user_id with
      | some pod =>
        if isExpiredAt pod.expires_at now = false then
          ((some (.hasPod pod pod.revealed), none), st)
        else check_signal_phase st profiles user_id profile now new_signal_id
      | none => check_signal_phase st profiles user_id profile now new_signal_id

/-! ## Spec-described rounding variant (for claim C9)

The spec (section 4.1, numeric semantics) states that rounding to 4
decimals is applied only at the outermost combined score and that the
intermediate sub-scores are not rounded before being combined.  The
following definition follows those words (it is compared against
weighted_match_score, which is translated from the source): the vibe
component enters the combination as the exact real 1 - sqrt s / sqrt n
and a single rounding is applied to the capped combination. -/

/-- Decides whether C - (3/5) * sqrt q ≤ 1 (q ≥ 0), by squaring. -/
def specCapLe1 (C q : ℚ) : Bool := (C ≤ 1) || ((C - 1)^2 ≤ 9/25 * q)

/-- Python round(C - (3/5) * sqrt q, 4) computed exactly: with C = p / r
and q = n / d in lowest terms, C - (3/5) * sqrt q =
(5 d p - sqrt (9 n d r^2)) / (5 d r). -/
def round4RatSubSqrt (C q : ℚ) : ℚ :=
  round4subSqrt (5 * (q.den : ℤ) * C.num) (9 * q.num.toNat * q.den * C.den ^ 2)
    (5 * q.den * C.den)

/-- Modelled from the spec: weighted_match_score as the spec describes
its numeric semantics, with rounding to 4 decimals applied only to the
outermost combined (and capped) score; the interest, vibe and bonus
sub-scores enter unrounded.  Branch structure and absence semantics are
those of the source. -/
def weighted_match_score_specRound (profile_a profile_b : Profile) : ℚ :=
  let i := interest_score profile_a.interests profile_b.interests
  if (vcTruthy profile_a.vibe_check && vcTruthy profile_b.vibe_check) = true then
    let bonus := mbti_compatibility_bonus
      (profile_a.vibe_check.getD emptyVC).mbti_type
      (profile_b.vibe_check.getD emptyVC).mbti_type
    let C := 2/5 * i + 3/5 + bonus
    let q := squaredSum VIBE_CHECK_KEYS
      (profile_a.vibe_check.getD emptyVC).dims (profile_b.vibe_check.getD emptyVC).dims / 8
    if specCapLe1 C q then round4RatSubSqrt C q else 1
  else
    if (personTruthy profile_a.personality && personTruthy profile_b.personality) = true then
      let C := 2/5 * i + 3/5
      let q := squaredSum PERSONALITY_KEYS
        (profile_a.personality.getD []) (profile_b.personality.getD []) / 3
      if specCapLe1 C q then round4RatSubSqrt C q else 1
    else round4 (min 1 (2/5 * i))
/-! ## Helper lemmas -/

/-- roundHE never exceeds an integer bound of its argument. -/
theorem roundHE_le {x : ℚ} {n : ℤ} (h : x ≤ (n : ℚ)) : roundHE x ≤ n := by
  have hfl : ⌊x⌋ ≤ n := by
    have h2 := Int.floor_le_floor h
    rwa [Int.floor_intCast] at h2
  have hsucc : ¬(x - ⌊x⌋ < 1/2) → ⌊x⌋ + 1 ≤ n := by
    intro h1
    rcases lt_or_eq_of_le hfl with hlt | heq
    · omega
    · exfalso
      apply h1
      have hxn : x ≤ (⌊x⌋ : ℚ) := by rw [heq]; exact h
      have := Int.floor_le x
      linarith
  unfold roundHE
  split
  · exact hfl
  · next h1 =>
    split
    · exact hsucc h1
    · split
      · exact hfl
      · exact hsucc h1

/-- Rounding a value at most 1 gives a value at most 1. -/
theorem round4_le_one {x : ℚ} (h : x ≤ 1) : round4 x ≤ 1 := by
  unfold round4
  have h1 : x * 10000 ≤ ((10000 : ℤ) : ℚ) := by push_cast; linarith
  have h2 := roundHE_le h1
  rw [div_le_one (by norm_num)]
  exact_mod_cast h2

/-- roundHE is the identity on integers. -/
theorem roundHE_intCast (k : ℤ) : roundHE ((k : ℚ)) = k := by
  unfold roundHE
  rw [Int.floor_intCast]
  norm_num

/-- round4 fixes every integer multiple of 1/10000. -/
theorem round4_int_div_10000 (k : ℤ) : round4 ((k : ℚ) / 10000) = (k : ℚ) / 10000 := by
  unfold round4
  have hx : ((k : ℚ) / 10000) * 10000 = (k : ℚ) := by field_simp
  rw [hx, roundHE_intCast]

/-- round4 fixes the output of round4subSqrt. -/
theorem round4_round4subSqrt (P : ℤ) (K D : ℕ) :
    round4 (round4subSqrt P K D) = round4subSqrt P K D := by
  unfold round4subSqrt
  exact round4_int_div_10000 _

/-- round4 fixes the output of round4OneMinusSqrtDiv. -/
theorem round4_round4OneMinusSqrtDiv (s : ℚ) (n : ℕ) :
    round4 (round4OneMinusSqrtDiv s n) = round4OneMinusSqrtDiv s n := by
  unfold round4OneMinusSqrtDiv
  exact round4_round4subSqrt _ _ _

/-- round4 is idempotent. -/
theorem round4_idem (x : ℚ) : round4 (round4 x) = round4 x := by
  unfold round4
  have hx : ((roundHE (x * 10000) : ℚ) / 10000) * 10000 = ((roundHE (x * 10000) : ℚ)) := by
    field_simp
  rw [hx, roundHE_intCast]

/-- The squared slider distance is symmetric. -/
theorem squaredSum_comm (keys : List String) (a b : List (String × ℚ)) :
    squaredSum keys a b = squaredSum keys b a := by
  unfold squaredSum
  congr 1
  apply List.map_congr_left
  intro k _
  ring

/-- interest_score is symmetric. -/
theorem interest_score_comm (ia ib : Option (List String)) :
    interest_score ia ib = interest_score ib ia := by
  simp only [interest_score]
  rw [Finset.union_comm ((ia.getD []).toFinset), Finset.inter_comm ((ia.getD []).toFinset)]

/-- vibe_score is symmetric. -/
theorem vibe_score_comm (pa pb : Option (List (String × ℚ))) :
    vibe_score pa pb = vibe_score pb pa := by
  unfold vibe_score
  rw [squaredSum_comm]
  exact if_congr or_comm rfl rfl

/-- vibe_check_score is symmetric. -/
theorem vibe_check_score_comm (va vb : Option VibeCheck) :
    vibe_check_score va vb = vibe_check_score vb va := by
  unfold vibe_check_score
  rw [squaredSum_comm]
  exact if_congr or_comm rfl rfl

/-- mbti_compatibility_bonus is symmetric. -/
theorem mbti_compatibility_bonus_comm (ma mb : Option String) :
    mbti_compatibility_bonus ma mb = mbti_compatibility_bonus mb ma := by
  simp only [mbti_compatibility_bonus]
  exact if_congr or_comm rfl (if_congr or_comm rfl (if_congr eq_comm rfl rfl))

/-- weighted_match_score is symmetric. -/
theorem weighted_match_score_comm (a b : Profile) :
    weighted_match_score a b = weighted_match_score b a := by
  simp only [weighted_match_score]
  rw [Bool.and_comm, interest_score_comm, vibe_check_score_comm,
    mbti_compatibility_bonus_comm, vibe_score_comm]

/-! ## Claim theorems -/

/-- C7: weighted_match_score is symmetric in its two profile arguments,
and so is every sub-score it combines: interest_score, vibe_score,
vibe_check_score and mbti_compatibility_bonus. -/
theorem C7_score_symmetry :
    (∀ a b : Profile, weighted_match_score a b = weighted_match_score b a) ∧
    (∀ ia ib : Option (List String), interest_score ia ib = interest_score ib ia) ∧
    (∀ pa pb : Option (List (String × ℚ)), vibe_score pa pb = vibe_score pb pa) ∧
    (∀ va vb : Option VibeCheck, vibe_check_score va vb = vibe_check_score vb va) ∧
    (∀ ma mb : Option String,
      mbti_compatibility_bonus ma mb = mbti_compatibility_bonus mb ma) :=
  ⟨weighted_match_score_comm, interest_score_comm, vibe_score_comm,
    vibe_check_score_comm, mbti_compatibility_bonus_comm⟩

/-- The vibe_check dims and mbti bonus example of claim C2: identical
vibe_check, identical interests and a same-type MBTI bonus of 0.10. -/
def capExample : Profile :=
  { name := none
    interests := some ["a"]
    personality := none
    vibe_check := some { dims := [("introvert_extrovert", 1)], mbti_type := some "INTJ" } }

/-- C2: weighted_match_score is round4 (min 1 (0.40 i + 0.60 v + bonus)),
where v and bonus come from vibe_check when both profiles carry a truthy
vibe_check and otherwise v is the slider vibe score with bonus 0; the
result never exceeds 1, and on the raw-1.10 example (identical
vibe_check, identical interests, same-type MBTI bonus 0.10) it is 1. -/
theorem C2_weighted_match_score_formula_cap :
    (∀ a b : Profile,
      weighted_match_score a b ≤ 1 ∧
      ((vcTruthy a.vibe_check && vcTruthy b.vibe_check) = true →
        weighted_match_score a b =
          round4 (min 1 (2/5 * interest_score a.interests b.interests +
            3/5 * vibe_check_score a.vibe_check b.vibe_check +
            mbti_compatibility_bonus (a.vibe_check.getD emptyVC).mbti_type
              (b.vibe_check.getD emptyVC).mbti_type))) ∧
      ((vcTruthy a.vibe_check && vcTruthy b.vibe_check) = false →
        weighted_match_score a b =
          round4 (min 1 (2/5 * interest_score a.interests b.interests +
            3/5 * vibe_score a.personality b.personality)))) ∧
    (2/5 * interest_score capExample.interests capExample.interests +
        3/5 * vibe_check_score capExample.vibe_check capExample.vibe_check +
        mbti_compatibility_bonus (capExample.vibe_check.getD emptyVC).mbti_type
          (capExample.vibe_check.getD emptyVC).mbti_type = 11/10 ∧
      weighted_match_score capExample capExample = 1) := by
  constructor
  · intro a b
    refine ⟨?_, ?_, ?_⟩
    · by_cases hc : (vcTruthy a.vibe_check && vcTruthy b.vibe_check) = true
      · simp only [weighted_match_score, if_pos hc]
        exact round4_le_one (min_le_left _ _)
      · simp only [weighted_match_score, if_neg hc]
        exact round4_le_one (min_le_left _ _)
    · intro hc
      simp only [weighted_match_score, if_pos hc]
    · intro hc
      have hc' : ¬ (vcTruthy a.vibe_check && vcTruthy b.vibe_check) = true := by
        rw [hc]; exact Bool.false_ne_true
      simp only [weighted_match_score, if_neg hc']
  · constructor
    · decide
    · decide

/-- C2 witness: the branch equations at concrete inputs. -/
theorem C2_witness :
    weighted_match_score capExample capExample =
      round4 (min 1 (2/5 * interest_score capExample.interests capExample.interests +
        3/5 * vibe_check_score capExample.vibe_check capExample.vibe_check +
        mbti_compatibility_bonus (capExample.vibe_check.getD emptyVC).mbti_type
          (capExample.vibe_check.getD emptyVC).mbti_type)) :=
  ((C2_weighted_match_score_formula_cap.1 capExample capExample).2.1 (by decide))

/-- dict.get falls back to the default when the key is absent. -/
theorem dictGet_of_find_none {d : List (String × ℚ)} {k : String} {x : ℚ}
    (h : d.find? (fun e => e.1 == k) = none) : dictGet d k x = x := by
  unfold dictGet
  rw [h]

/-- C8 counterexample: both personality arguments present but empty.
The code returns 0.0 for them (Python truthiness: an empty dict is
falsy), while the all-neutral computation the claim requires yields 1. -/
theorem C8_counterexample :
    vibe_score (some ([] : List (String × ℚ))) (some []) = 0 ∧
      round4OneMinusSqrtDiv (squaredSum PERSONALITY_KEYS [] []) 3 = 1 := by
  constructor
  · decide
  · decide

/-- C8 amended: vibe_score returns 0.0 when either personality argument
is absent or an empty mapping; a slider key missing from a present
non-empty personality object is treated as the neutral 0.5, so two
non-empty personality objects missing every slider key score as
all-neutral (distance 0, score 1). -/
theorem C8_vibe_score_absence_amended :
    (∀ pa pb : Option (List (String × ℚ)),
      pa = none ∨ pa = some [] ∨ pb = none ∨ pb = some [] → vibe_score pa pb = 0) ∧
    (∀ la lb : List (String × ℚ), la ≠ [] → lb ≠ [] →
      (∀ k ∈ PERSONALITY_KEYS, la.find? (fun e => e.1 == k) = none) →
      (∀ k ∈ PERSONALITY_KEYS, lb.find? (fun e => e.1 == k) = none) →
      vibe_score (some la) (some lb) = 1) := by
  constructor
  · intro pa pb h
    rcases h with h | h | h | h <;> subst h <;>
      simp [vibe_score, personTruthy]
  · intro la lb hla hlb hfa hfb
    have hta : personTruthy (some la) = true := by
      simp [personTruthy, List.isEmpty_iff, hla]
    have htb : personTruthy (some lb) = true := by
      simp [personTruthy, List.isEmpty_iff, hlb]
    have hs : squaredSum PERSONALITY_KEYS la lb = 0 := by
      have e1 := hfa "introvert_extrovert" (by simp [PERSONALITY_KEYS])
      have e2 := hfa "spontaneous_planner" (by simp [PERSONALITY_KEYS])
      have e3 := hfa "active_relaxed" (by simp [PERSONALITY_KEYS])
      have f1 := hfb "introvert_extrovert" (by simp [PERSONALITY_KEYS])
      have f2 := hfb "spontaneous_planner" (by simp [PERSONALITY_KEYS])
      have f3 := hfb "active_relaxed" (by simp [PERSONALITY_KEYS])
      simp [squaredSum, PERSONALITY_KEYS, dictGet_of_find_none, e1, e2, e3, f1, f2, f3]
    simp only [vibe_score, hta, htb, Option.getD_some]
    rw [if_neg (by simp), hs]
    decide

/-- C8 witness: two non-empty personality objects with no slider keys
score 1 (all-neutral), while the empty mapping scores 0. -/
theorem C8_witness :
    vibe_score (some [("hobby_focus", 1)]) (some [("zeal", 0)]) = 1 :=
  C8_vibe_score_absence_amended.2 [("hobby_focus", 1)] [("zeal", 0)]
    (by decide) (by decide) (by decide) (by decide)

/-- First profile of the C9 counterexample: one slider 1/400 away from
neutral on one side. -/
def c9profileA : Profile :=
  { name := none
    interests := none
    personality := some [("introvert_extrovert", 1/400)]
    vibe_check := none }

/-- Second profile of the C9 counterexample. -/
def c9profileB : Profile :=
  { name := none
    interests := none
    personality := some [("introvert_extrovert", 0)]
    vibe_check := none }

set_option maxRecDepth 100000 in
/-- C9 counterexample: the source rounds vibe_score to 4 decimals before
combining, and the combined score is rounded again; with slider distance
1/400 the double rounding yields 0.5992 while the spec-described single
outermost rounding yields 0.5991. -/
theorem C9_counterexample :
    weighted_match_score c9profileA c9profileB ≠
      weighted_match_score_specRound c9profileA c9profileB ∧
    weighted_match_score c9profileA c9profileB = 5992/10000 ∧
    weighted_match_score_specRound c9profileA c9profileB = 5991/10000 := by
  refine ⟨?_, ?_, ?_⟩ <;> decide

/-- C9 amended: weighted_match_score rounds its combined capped score to
4 decimals, but the intermediate vibe_score and vibe_check_score are
also already rounded to 4 decimals (their outputs are fixed by round4),
so the outermost rounding is a double rounding; only interest_score is
unrounded (a Jaccard value such as 1/3 is not a 4-decimal quantity). -/
theorem C9_rounding_amended :
    (∀ pa pb : Option (List (String × ℚ)),
      round4 (vibe_score pa pb) = vibe_score pa pb) ∧
    (∀ va vb : Option VibeCheck,
      round4 (vibe_check_score va vb) = vibe_check_score va vb) ∧
    (∀ a b : Profile,
      round4 (weighted_match_score a b) = weighted_match_score a b) ∧
    round4 (interest_score (some ["a"]) (some ["a", "b", "c"])) ≠
      interest_score (some ["a"]) (some ["a", "b", "c"]) := by
  refine ⟨?_, ?_, ?_, ?_⟩
  · intro pa pb
    unfold vibe_score
    split
    · decide
    · exact round4_round4OneMinusSqrtDiv _ _
  · intro va vb
    unfold vibe_check_score
    split
    · decide
    · exact round4_round4OneMinusSqrtDiv _ _
  · intro a b
    unfold weighted_match_score
    split
    · exact round4_idem _
    · exact round4_idem _
  · decide

/-- C9 witness: the already-rounded vibe_score at a concrete input. -/
theorem C9_witness :
    round4 (vibe_score (some [("introvert_extrovert", 1)])
        (some [("introvert_extrovert", 0)])) =
      vibe_score (some [("introvert_extrovert", 1)])
        (some [("introvert_extrovert", 0)]) :=
  C9_rounding_amended.1 _ _

/-- A profile whose vibe_check entry, when it is the empty mapping, is
replaced by an absent one. -/
def stripEmptyVC (p : Profile) : Profile :=
  if p.vibe_check = some emptyVC then
    { p with vibe_check := none }
  else p

/-- C10: when at least one profile carries a present-but-empty
vibe_check mapping, weighted_match_score behaves exactly as if that
vibe_check were absent: it equals the score of the profiles with the
empty vibe_check removed, and it falls back to the slider vibe score
with no MBTI bonus, whatever the other vibe_check contains. -/
theorem C10_empty_vibe_check_fallback (a b : Profile)
    (h : a.vibe_check = some emptyVC ∨ b.vibe_check = some emptyVC) :
    weighted_match_score a b = weighted_match_score (stripEmptyVC a) (stripEmptyVC b) ∧
    weighted_match_score a b =
      round4 (min 1 (2/5 * interest_score a.interests b.interests +
        3/5 * vibe_score a.personality b.personality)) := by
  have hfalse : (vcTruthy a.vibe_check && vcTruthy b.vibe_check) = false := by
    rcases h with h | h <;> rw [h] <;> simp [vcTruthy, emptyVC]
  have hfalse' : (vcTruthy (stripEmptyVC a).vibe_check &&
      vcTruthy (stripEmptyVC b).vibe_check) = false := by
    unfold stripEmptyVC
    rcases h with h | h
    · rw [if_pos h]
      simp [vcTruthy]
    · rw [if_pos h]
      by_cases ha : a.vibe_check = some emptyVC
      · rw [if_pos ha]; simp [vcTruthy]
      · rw [if_neg ha]; simp [vcTruthy]
  have hstrip_i : (stripEmptyVC a).interests = a.interests := by
    unfold stripEmptyVC; split <;> rfl
  have hstrip_p : (stripEmptyVC a).personality = a.personality := by
    unfold stripEmptyVC; split <;> rfl
  have hstrip_ib : (stripEmptyVC b).interests = b.interests := by
    unfold stripEmptyVC; split <;> rfl
  have hstrip_pb : (stripEmptyVC b).personality = b.personality := by
    unfold stripEmptyVC; split <;> rfl
  constructor
  · simp only [weighted_match_score, hfalse, hfalse', Bool.false_eq_true, if_neg,
      hstrip_i, hstrip_p, hstrip_ib, hstrip_pb]
    simp
  · simp only [weighted_match_score, hfalse, Bool.false_eq_true, if_neg]
    simp

/-- C10 witness: a profile with the empty vibe_check mapping against one
with a full vibe_check falls back to the slider score. -/
theorem C10_witness :
    weighted_match_score
        { name := none, interests := some ["a"],
          personality := some [("active_relaxed", 1)], vibe_check := some emptyVC }
        { name := none, interests := some ["a"],
          personality := some [("active_relaxed", 1)],
          vibe_check := some { dims := [("introvert_extrovert", 1)], mbti_type := some "INTJ" } } =
      round4 (min 1 (2/5 * interest_score (some ["a"]) (some ["a"]) +
        3/5 * vibe_score (some [("active_relaxed", 1)]) (some [("active_relaxed", 1)]))) :=
  (C10_empty_vibe_check_fallback _ _ (Or.inl rfl)).2

/-- Greedy expansion only ever appends to the cluster. -/
theorem greedyExpand_prefix (pool : List (ℕ × Profile)) (ms : ℚ) (cs : ℕ) :
    ∀ fuel cluster remaining, ∃ t,
      greedyExpand pool ms cs fuel cluster remaining = cluster ++ t := by
  intro fuel
  induction fuel with
  | zero =>
    intro cluster remaining
    exact ⟨[], by simp [greedyExpand]⟩
  | succ n ih =>
    intro cluster remaining
    by_cases h : cluster.length < cs ∧ remaining ≠ []
    · rcases hbc : bestCandidate pool cluster remaining with ⟨oc, avg⟩
      cases oc with
      | none =>
        exact ⟨[], by simp [greedyExpand, if_pos h, hbc]⟩
      | some c =>
        by_cases hlt : avg < ms
        · exact ⟨[], by simp [greedyExpand, if_pos h, hbc, if_pos hlt]⟩
        · obtain ⟨t, ht⟩ := ih (cluster ++ [c]) (remaining.erase c)
          refine ⟨c :: t, ?_⟩
          simp only [greedyExpand, if_pos h, hbc, if_neg hlt]
          rw [ht, List.append_assoc]
          rfl
    · exact ⟨[], by simp [greedyExpand, if_neg h]⟩

/-- Greedy expansion never grows the cluster beyond the target size (or
its starting size, if that is already larger). -/
theorem greedyExpand_length_le (pool : List (ℕ × Profile)) (ms : ℚ) (cs : ℕ) :
    ∀ fuel cluster remaining,
      (greedyExpand pool ms cs fuel cluster remaining).length ≤ max cluster.length cs := by
  intro fuel
  induction fuel with
  | zero =>
    intro cluster remaining
    simp [greedyExpand]
  | succ n ih =>
    intro cluster remaining
    by_cases h : cluster.length < cs ∧ remaining ≠ []
    · rcases hbc : bestCandidate pool cluster remaining with ⟨oc, avg⟩
      cases oc with
      | none => simp [greedyExpand, if_pos h, hbc]
      | some c =>
        by_cases hlt : avg < ms
        · simp [greedyExpand, if_pos h, hbc, if_pos hlt]
        · simp only [greedyExpand, if_pos h, hbc, if_neg hlt]
          have h2 := ih (cluster ++ [c]) (remaining.erase c)
          have h4 : max (cluster ++ [c]).length cs = cs := by
            have h3 : (cluster ++ [c]).length = cluster.length + 1 := by simp
            rw [h3]
            exact Nat.max_eq_right (by omega)
          rw [h4] at h2
          exact le_trans h2 (le_max_right _ _)
    · simp [greedyExpand, if_neg h]

/-- Every non-empty result of the cluster tail has between 3 and
cluster_size members and starts with the requester. -/
theorem clusterFrom_shape (pool : List (ℕ × Profile)) (ms : ℚ) (cs : ℕ)
    (uid bid : ℕ) (rem : List ℕ)
    (hne : clusterFrom pool ms cs uid bid rem ≠ []) :
    3 ≤ (clusterFrom pool ms cs uid bid rem).length ∧
    (clusterFrom pool ms cs uid bid rem).length ≤ cs ∧
    (clusterFrom pool ms cs uid bid rem).head? = some uid := by
  obtain ⟨t, ht⟩ := greedyExpand_prefix pool ms cs rem.length [uid, bid] rem
  have hlen := greedyExpand_length_le pool ms cs rem.length [uid, bid] rem
  by_cases h3 : (greedyExpand pool ms cs rem.length [uid, bid] rem).length < 3
  · exfalso
    apply hne
    simp only [clusterFrom]
    rw [if_pos h3]
  · have hres : clusterFrom pool ms cs uid bid rem =
        greedyExpand pool ms cs rem.length [uid, bid] rem := by
      simp only [clusterFrom]
      rw [if_neg h3]
    rw [hres]
    have hmax : max ([uid, bid] : List ℕ).length cs = max 2 cs := rfl
    rw [hmax] at hlen
    refine ⟨by omega, ?_, ?_⟩
    · rcases le_total cs 2 with hc | hc
      · rw [Nat.max_eq_left hc] at hlen
        omega
      · rw [Nat.max_eq_right hc] at hlen
        exact hlen
    · rw [ht]
      rfl

/-- C1: find_signal_cluster returns the empty list when the requester is
not in the pool or when no other pool member reaches min_score against
the requester; every non-empty result has between 3 and cluster_size
members and starts with the requester (so a greedy cluster that would
stay below 3 members is reported as empty). -/
theorem C1_find_signal_cluster_shape (uid : ℕ) (pool : List (ℕ × Profile))
    (ms : ℚ) (cs : ℕ) :
    (poolFind pool uid = none → find_signal_cluster uid pool ms cs = []) ∧
    (∀ requester, poolFind pool uid = some requester →
      (∀ p ∈ pool, p.1 ≠ uid → weighted_match_score requester p.2 < ms) →
      find_signal_cluster uid pool ms cs = []) ∧
    (find_signal_cluster uid pool ms cs ≠ [] →
      3 ≤ (find_signal_cluster uid pool ms cs).length ∧
      (find_signal_cluster uid pool ms cs).length ≤ cs ∧
      (find_signal_cluster uid pool ms cs).head? = some uid) := by
  refine ⟨?_, ?_, ?_⟩
  · intro h
    simp [find_signal_cluster, h]
  · intro requester hreq hscores
    have hcand : clusterCandidates uid pool requester ms = [] := by
      unfold clusterCandidates
      rw [List.filter_eq_nil_iff]
      intro c hc
      rw [List.mem_map] at hc
      obtain ⟨p, hp, rfl⟩ := hc
      rw [List.mem_filter] at hp
      obtain ⟨hpl, hpne⟩ := hp
      have hne : p.1 ≠ uid := by simpa using hpne
      have hlt := hscores p hpl hne
      simpa using not_le.mpr hlt
    simp [find_signal_cluster, hreq, hcand, List.insertionSort]
  · intro hne
    cases hreq : poolFind pool uid with
    | none => simp [find_signal_cluster, hreq] at hne
    | some requester =>
      cases hsort : List.insertionSort (fun x y : ℕ × ℚ => y.2 ≤ x.2)
          (clusterCandidates uid pool requester ms) with
      | nil => simp [find_signal_cluster, hreq, hsort] at hne
      | cons best rest =>
        simp only [find_signal_cluster, hreq, hsort] at hne ⊢
        exact clusterFrom_shape pool ms cs uid best.1 _ hne

/-- A pool of four identical complete profiles. -/
def c1Profile : Profile :=
  { name := some "A"
    interests := some ["a"]
    personality := some [("introvert_extrovert", 1/2)]
    vibe_check := none }

/-- The witness pool for C1. -/
def c1Pool : List (ℕ × Profile) :=
  [(1, c1Profile), (2, c1Profile), (3, c1Profile), (4, c1Profile)]

set_option maxRecDepth 100000 in
/-- C1 witness: on four identical profiles the requester gets a full
cluster of 4 with itself first. -/
theorem C1_witness :
    3 ≤ (find_signal_cluster 1 c1Pool (7/10) 4).length ∧
    (find_signal_cluster 1 c1Pool (7/10) 4).length ≤ 4 ∧
    (find_signal_cluster 1 c1Pool (7/10) 4).head? = some 1 :=
  (C1_find_signal_cluster_shape 1 c1Pool (7/10) 4).2.2 (by decide)

/-- C3: signals created and updated through the lifecycle keep their
invariants: a created signal starts pending with no acceptances;
recording an acceptance for a target keeps accepted_user_ids inside
target_user_ids, only grows it, never duplicates an entry (accepting
twice is the identity), leaves the target list unchanged, and (from a
pending signal) sets status to accepted exactly when the accepted set
has become a superset of the targets; and the service refuses to touch a
signal whose status is already accepted, so accepted is terminal. -/
theorem C3_signal_lifecycle_invariants :
    (∀ (creator : ℕ) (targets : List ℕ) (now : ℤ) (sid : String),
      (create_signal creator targets now sid).accepted_user_ids = [] ∧
      (create_signal creator targets now sid).status = "pending") ∧
    (∀ (s : Signal) (uid : ℕ),
      (db_accept_signal s uid).target_user_ids = s.target_user_ids ∧
      (uid ∈ s.target_user_ids →
        (∀ x ∈ s.accepted_user_ids, x ∈ s.target_user_ids) →
        ∀ x ∈ (db_accept_signal s uid).accepted_user_ids, x ∈ s.target_user_ids) ∧
      (∀ x ∈ s.accepted_user_ids, x ∈ (db_accept_signal s uid).accepted_user_ids) ∧
      (uid ∈ s.accepted_user_ids →
        (db_accept_signal s uid).accepted_user_ids = s.accepted_user_ids) ∧
      (s.accepted_user_ids.Nodup → (db_accept_signal s uid).accepted_user_ids.Nodup) ∧
      (s.status = "pending" →
        ((db_accept_signal s uid).status = "accepted" ↔
          ∀ t ∈ s.target_user_ids, t ∈ (db_accept_signal s uid).accepted_user_ids))) ∧
    (∀ (st : Store) (uid : ℕ) (sid : String) (now : ℤ) (pid : String) (s : Signal),
      get_signal st sid = some s → s.status = "accepted" →
      (accept_signal st uid sid now pid).1.1 = none ∧
      (accept_signal st uid sid now pid).2 = st) := by
  refine ⟨?_, ?_, ?_⟩
  · intro creator targets now sid
    exact ⟨rfl, rfl⟩
  · intro s uid
    by_cases hm : uid ∈ s.accepted_user_ids
    · refine ⟨rfl, ?_, ?_, ?_, ?_, ?_⟩
      · intro _ hsub x hx
        simp only [db_accept_signal, if_pos hm] at hx
        exact hsub x hx
      · intro x hx
        simpa only [db_accept_signal, if_pos hm] using hx
      · intro _
        simp [db_accept_signal, if_pos hm]
      · intro hnd
        simpa only [db_accept_signal, if_pos hm] using hnd
      · intro hpend
        simp only [db_accept_signal, if_pos hm]
        by_cases hall : s.target_user_ids.all
            (fun t => decide (t ∈ s.accepted_user_ids)) = true
        · rw [if_pos hall]
          simp only [List.all_eq_true, decide_eq_true_iff] at hall
          simpa using hall
        · rw [if_neg hall]
          simp only [List.all_eq_true, decide_eq_true_iff] at hall
          rw [hpend]
          constructor
          · intro h
            exact absurd h (by decide)
          · intro h
            exact absurd h hall
    · refine ⟨rfl, ?_, ?_, ?_, ?_, ?_⟩
      · intro htgt hsub x hx
        simp only [db_accept_signal, if_neg hm, List.mem_append,
          List.mem_singleton] at hx
        rcases hx with hx | rfl
        · exact hsub x hx
        · exact htgt
      · intro x hx
        simp only [db_accept_signal, if_neg hm, List.mem_append]
        exact Or.inl hx
      · intro hmem
        exact absurd hmem hm
      · intro hnd
        simp only [db_accept_signal, if_neg hm]
        simpa [List.nodup_append] using ⟨hnd, hm⟩
      · intro hpend
        simp only [db_accept_signal, if_neg hm]
        by_cases hall : s.target_user_ids.all
            (fun t => decide (t ∈ s.accepted_user_ids ++ [uid])) = true
        · rw [if_pos hall]
          simp only [List.all_eq_true, decide_eq_true_iff] at hall
          simpa using hall
        · rw [if_neg hall]
          simp only [List.all_eq_true, decide_eq_true_iff] at hall
          rw [hpend]
          constructor
          · intro h
            exact absurd h (by decide)
          · intro h
            exact absurd h hall
  · intro st uid sid now pid s hget hacc
    simp only [accept_signal, hget]
    by_cases h1 : uid ∈ s.target_user_ids
    · rw [if_neg (not_not_intro h1)]
      by_cases h2 : isExpiredAt s.expires_at now = true
      · rw [if_pos h2]
        exact ⟨rfl, rfl⟩
      · rw [if_neg h2, if_pos hacc]
        exact ⟨rfl, rfl⟩
    · rw [if_pos h1]
      exact ⟨rfl, rfl⟩

/-- A pending signal used by the lifecycle witnesses. -/
def c3Signal : Signal :=
  { id := "s1"
    creator_id := 1
    target_user_ids := [1, 2, 3]
    accepted_user_ids := [2]
    created_at := 0
    expires_at := 604800
    status := "pending" }

/-- An accepted signal. -/
def c3Accepted : Signal :=
  { c3Signal with
    id := "s2"
    accepted_user_ids := [1, 2, 3]
    status := "accepted" }

/-- The store holding the accepted signal. -/
def c3AcceptedStore : Store :=
  { signals := [c3Accepted], pods := [] }

/-- C3 witness: the invariants applied to a concrete pending signal and
the terminal behaviour on a concrete accepted signal. -/
theorem C3_witness :
    (∀ x ∈ (db_accept_signal c3Signal 1).accepted_user_ids,
      x ∈ c3Signal.target_user_ids) ∧
    (db_accept_signal c3Signal 2).accepted_user_ids = c3Signal.accepted_user_ids ∧
    ((db_accept_signal c3Signal 1).status = "accepted" ↔
      ∀ t ∈ c3Signal.target_user_ids, t ∈ (db_accept_signal c3Signal 1).accepted_user_ids) ∧
    (accept_signal c3AcceptedStore 1 "s2" 0 "p1").2 = c3AcceptedStore :=
  ⟨(C3_signal_lifecycle_invariants.2.1 c3Signal 1).2.1 (by decide) (by decide),
   (C3_signal_lifecycle_invariants.2.1 c3Signal 2).2.2.2.1 (by decide),
   (C3_signal_lifecycle_invariants.2.1 c3Signal 1).2.2.2.2.2 (by decide),
   (C3_signal_lifecycle_invariants.2.2 c3AcceptedStore 1 "s2" 0 "p1" c3Accepted
     (by decide) (by decide)).2⟩

/-- The failure condition of accept_signal as a single predicate. -/
def acceptFails (st : Store) (uid : ℕ) (sid : String) (now : ℤ) : Prop :=
  get_signal st sid = none ∨
    ∃ s, get_signal st sid = some s ∧
      (uid ∉ s.target_user_ids ∨ s.expires_at < now ∨ s.status = "accepted")

/-- C4: accept_signal returns a (null, error-message) pair exactly when
the signal does not exist, the user is not a target, the signal is past
its expires_at, or the signal is already accepted; in every other case
it returns a payload with no error.  (The embedding is a total function,
so no exception can escape.) -/
theorem C4_accept_signal_failure_conditions (st : Store) (uid : ℕ)
    (sid : String) (now : ℤ) (pid : String) :
    (((accept_signal st uid sid now pid).1.1 = none ∧
      (accept_signal st uid sid now pid).1.2 ≠ none) ↔
        acceptFails st uid sid now) ∧
    ((∃ v, (accept_signal st uid sid now pid).1.1 = some v ∧
      (accept_signal st uid sid now pid).1.2 = none) ↔
        ¬ acceptFails st uid sid now) := by
  cases hget : get_signal st sid with
  | none =>
    simp [accept_signal, hget, acceptFails]
  | some s =>
    simp only [acceptFails, hget, Option.some.injEq, reduceCtorEq, false_or]
    have hex : (∃ s2, s = s2 ∧
        (uid ∉ s2.target_user_ids ∨ s2.expires_at < now ∨ s2.status = "accepted")) ↔
        (uid ∉ s.target_user_ids ∨ s.expires_at < now ∨ s.status = "accepted") := by
      constructor
      · rintro ⟨s2, rfl, h⟩
        exact h
      · intro h
        exact ⟨s, rfl, h⟩
    rw [hex]
    by_cases h1 : uid ∈ s.target_user_ids
    · by_cases h2 : s.expires_at < now
      · have h2b : isExpiredAt s.expires_at now = true := by
          simp [isExpiredAt, h2]
        simp [accept_signal, hget, not_not_intro h1, h2b, h1, h2]
      · have h2b : isExpiredAt s.expires_at now = false := by
          simp [isExpiredAt, h2]
        by_cases h3 : s.status = "accepted"
        · simp [accept_signal, hget, not_not_intro h1, h2b, h1, h2, h3]
        · by_cases hall : s.target_user_ids.all
              (fun t => decide (t ∈ (db_accept_signal s uid).accepted_user_ids)) = true
          · simp [accept_signal, hget, not_not_intro h1, h2b, h1, h2, h3, hall]
          · simp [accept_signal, hget, not_not_intro h1, h2b, h1, h2, h3, hall]
    · simp [accept_signal, hget, h1]

/-- The empty store. -/
def c4EmptyStore : Store := { signals := [], pods := [] }

/-- C4 witness: a missing signal fails with an error, and a valid
acceptance on a concrete pending signal succeeds with no error. -/
theorem C4_witness :
    ((accept_signal c4EmptyStore 1 "s1" 0 "p1").1.1 = none ∧
      (accept_signal c4EmptyStore 1 "s1" 0 "p1").1.2 ≠ none) ∧
    (∃ v, (accept_signal { signals := [c3Signal], pods := [] } 1 "s1" 0 "p1").1.1 = some v ∧
      (accept_signal { signals := [c3Signal], pods := [] } 1 "s1" 0 "p1").1.2 = none) :=
  ⟨(C4_accept_signal_failure_conditions c4EmptyStore 1 "s1" 0 "p1").1.mpr
      (Or.inl (by decide)),
   (C4_accept_signal_failure_conditions { signals := [c3Signal], pods := [] }
      1 "s1" 0 "p1").2.mpr (by
        intro h
        rcases h with h | ⟨s, hs, hcond⟩
        · exact absurd h (by decide)
        · have hg : get_signal { signals := [c3Signal], pods := [] } "s1" =
              some c3Signal := by decide
          rw [hg] at hs
          obtain rfl : c3Signal = s := Option.some.inj hs
          rcases hcond with h | h | h <;> exact absurd h (by decide))⟩

/-- C5: when an acceptance completes the target set, accept_signal
creates a Pod copying the signal's target list as membership, with
revealed false, created now, expiring 7 days later, stores it, and
returns the has_pod view; when acceptances are still missing it returns
the updated pending signal as the has_signal view. -/
theorem C5_accept_signal_pod_promotion (st : Store) (uid : ℕ) (sid : String)
    (now : ℤ) (pid : String) (s : Signal)
    (hget : get_signal st sid = some s)
    (htgt : uid ∈ s.target_user_ids)
    (hexp : ¬ s.expires_at < now)
    (hacc : s.status ≠ "accepted") :
    ((∀ t ∈ s.target_user_ids, t ∈ (db_accept_signal s uid).accepted_user_ids) →
      (accept_signal st uid sid now pid).1 =
        (some (.hasPod (create_pod_from_signal (db_accept_signal s uid) now pid) false),
          none) ∧
      (create_pod_from_signal (db_accept_signal s uid) now pid).members =
        s.target_user_ids ∧
      (create_pod_from_signal (db_accept_signal s uid) now pid).revealed = false ∧
      (create_pod_from_signal (db_accept_signal s uid) now pid).created_at = now ∧
      (create_pod_from_signal (db_accept_signal s uid) now pid).expires_at =
        now + 7 * daySecs ∧
      create_pod_from_signal (db_accept_signal s uid) now pid ∈
        (accept_signal st uid sid now pid).2.pods) ∧
    ((¬ ∀ t ∈ s.target_user_ids, t ∈ (db_accept_signal s uid).accepted_user_ids) →
      (accept_signal st uid sid now pid).1 =
        (some (.hasSignal (db_accept_signal s uid)), none) ∧
      (s.status = "pending" → (db_accept_signal s uid).status = "pending")) := by
  have hexp' : isExpiredAt s.expires_at now = false := by
    simp [isExpiredAt, hexp]
  have hmembers : (create_pod_from_signal (db_accept_signal s uid) now pid).members =
      s.target_user_ids := rfl
  constructor
  · intro hall
    have hallb : s.target_user_ids.all
        (fun t => decide (t ∈ (db_accept_signal s uid).accepted_user_ids)) = true := by
      simp only [List.all_eq_true, decide_eq_true_iff]
      exact hall
    refine ⟨?_, hmembers, rfl, rfl, rfl, ?_⟩
    · simp [accept_signal, hget, not_not_intro htgt, hexp', hacc, hallb]
    · simp [accept_signal, hget, not_not_intro htgt, hexp', hacc, hallb]
  · intro hnall
    have hallb : s.target_user_ids.all
        (fun t => decide (t ∈ (db_accept_signal s uid).accepted_user_ids)) ≠ true := by
      intro hcon
      apply hnall
      simpa only [List.all_eq_true, decide_eq_true_iff] using hcon
    constructor
    · simp [accept_signal, hget, not_not_intro htgt, hexp', hacc, hallb]
    · intro hpend
      simp only [db_accept_signal]
      rw [if_neg (by simpa only [db_accept_signal] using hallb), hpend]

/-- The store for the C5 witnesses: one pending signal one acceptance
away from completion, and one needing two more. -/
def c5Store : Store :=
  { signals :=
      [{ id := "s1", creator_id := 1, target_user_ids := [1, 2],
         accepted_user_ids := [2], created_at := 0, expires_at := 604800,
         status := "pending" },
       { id := "s2", creator_id := 1, target_user_ids := [1, 2, 3],
         accepted_user_ids := [], created_at := 0, expires_at := 604800,
         status := "pending" }]
    pods := [] }

/-- The first signal of the C5 witness store. -/
def c5Sig1 : Signal :=
  { id := "s1", creator_id := 1, target_user_ids := [1, 2],
    accepted_user_ids := [2], created_at := 0, expires_at := 604800,
    status := "pending" }

/-- The second signal of the C5 witness store. -/
def c5Sig2 : Signal :=
  { id := "s2", creator_id := 1, target_user_ids := [1, 2, 3],
    accepted_user_ids := [], created_at := 0, expires_at := 604800,
    status := "pending" }

/-- C5 witness: the completing acceptance yields the has_pod view with
the copied membership, and an incomplete acceptance yields the
has_signal view. -/
theorem C5_witness :
    ((accept_signal c5Store 1 "s1" 100 "p1").1 =
      (some (.hasPod (create_pod_from_signal (db_accept_signal c5Sig1 1) 100 "p1") false),
        none) ∧
      (create_pod_from_signal (db_accept_signal c5Sig1 1) 100 "p1").members =
        c5Sig1.target_user_ids) ∧
    (accept_signal c5Store 1 "s2" 100 "p2").1 =
      (some (.hasSignal (db_accept_signal c5Sig2 1)), none) :=
  ⟨⟨((C5_accept_signal_pod_promotion c5Store 1 "s1" 100 "p1" c5Sig1
        (by decide) (by decide) (by decide) (by decide)).1 (by decide)).1,
    ((C5_accept_signal_pod_promotion c5Store 1 "s1" 100 "p1" c5Sig1
        (by decide) (by decide) (by decide) (by decide)).1 (by decide)).2.1⟩,
   ((C5_accept_signal_pod_promotion c5Store 1 "s2" 100 "p2" c5Sig2
        (by decide) (by decide) (by decide) (by decide)).2 (by decide)).1⟩

/-- The cluster phase only produces no_match or new_signal views. -/
theorem check_cluster_phase_view (st : Store) (profiles : List (ℕ × Profile))
    (uid : ℕ) (prof : Profile) (now : ℤ) (nsid : String) :
    (check_cluster_phase st profiles uid prof now nsid).1.1 = some .noMatch ∨
    ∃ sg, (check_cluster_phase st profiles uid prof now nsid).1.1 =
      some (.newSignal sg) := by
  simp only [check_cluster_phase]
  split
  all_goals split
  all_goals first
    | exact Or.inl rfl
    | exact Or.inr ⟨_, rfl⟩

/-- The signal phase returns an unexpired pending signal from the store
query, or defers to the cluster phase. -/
theorem check_signal_phase_view (st : Store) (profiles : List (ℕ × Profile))
    (uid : ℕ) (prof : Profile) (now : ℤ) (nsid : String) :
    (∃ sg, (check_signal_phase st profiles uid prof now nsid).1.1 =
        some (.hasSignal sg) ∧
      get_signal_for_user st uid = some sg ∧ ¬ sg.expires_at < now) ∨
    (check_signal_phase st profiles uid prof now nsid).1.1 = some .noMatch ∨
    ∃ sg, (check_signal_phase st profiles uid prof now nsid).1.1 =
      some (.newSignal sg) := by
  cases hq : get_signal_for_user st uid with
  | none =>
    have hd : check_signal_phase st profiles uid prof now nsid =
        check_cluster_phase st profiles uid prof now nsid := by
      simp only [check_signal_phase, hq]
    rw [hd]
    exact Or.inr (check_cluster_phase_view st profiles uid prof now nsid)
  | some sg =>
    by_cases he : isExpiredAt sg.expires_at now = false
    · have hd : check_signal_phase st profiles uid prof now nsid =
          ((some (.hasSignal sg), none), st) := by
        simp only [check_signal_phase, hq, he, if_pos]
      rw [hd]
      exact Or.inl ⟨sg, rfl, rfl, by simpa [isExpiredAt] using he⟩
    · have hd : check_signal_phase st profiles uid prof now nsid =
          check_cluster_phase st profiles uid prof now nsid := by
        simp only [check_signal_phase, hq, if_neg he]
      rw [hd]
      exact Or.inr (check_cluster_phase_view st profiles uid prof now nsid)

/-- C6 amended: check_for_signal never surfaces an expired pod or
signal (any has_pod or has_signal view it returns is unexpired), and the
record the store queries return is surfaced when it is unexpired: an
unexpired most recent pod containing the user is returned as the active
pod, and (when that query yields nothing unexpired) an unexpired most
recent pending signal targeting the user is returned as the active
signal. -/
theorem C6_expiry_gating_amended (st : Store) (profiles : List (ℕ × Profile))
    (uid : ℕ) (now : ℤ) (nsid : String) :
    (∀ pod rev, (check_for_signal st profiles uid now nsid).1.1 =
        some (.hasPod pod rev) → ¬ pod.expires_at < now) ∧
    (∀ sig, (check_for_signal st profiles uid now nsid).1.1 =
        some (.hasSignal sig) → ¬ sig.expires_at < now) ∧
    (∀ prof pod, get_profile profiles uid = some prof →
      nameTruthy prof.name = true →
      get_active_pod st uid = some pod → ¬ pod.expires_at < now →
      (check_for_signal st profiles uid now nsid).1.1 =
        some (.hasPod pod pod.revealed)) ∧
    (∀ prof sig, get_profile profiles uid = some prof →
      nameTruthy prof.name = true →
      (∀ pod, get_active_pod st uid = some pod → pod.expires_at < now) →
      get_signal_for_user st uid = some sig → ¬ sig.expires_at < now →
      (check_for_signal st profiles uid now nsid).1.1 =
        some (.hasSignal sig)) := by
  refine ⟨?_, ?_, ?_, ?_⟩
  · intro pod rev hres
    cases hprof : get_profile profiles uid with
    | none => simp [check_for_signal, hprof] at hres
    | some prof =>
      by_cases hname : nameTruthy prof.name = false
      · simp [check_for_signal, hprof, hname] at hres
      · have hname' : nameTruthy prof.name = true := by
          revert hname
          cases nameTruthy prof.name <;> simp
        have hphase : ∀ h2 : (check_signal_phase st profiles uid prof now nsid).1.1 =
            some (.hasPod pod rev), False := by
          intro h2
          rcases check_signal_phase_view st profiles uid prof now nsid with
            ⟨sg, hv, _, _⟩ | hv | ⟨sg, hv⟩ <;> rw [hv] at h2 <;> simp at h2
        cases hpod : get_active_pod st uid with
        | none =>
          have hd : check_for_signal st profiles uid now nsid =
              check_signal_phase st profiles uid prof now nsid := by
            simp [check_for_signal, hprof, hname', hpod]
          rw [hd] at hres
          exact absurd hres (fun h2 => hphase h2)
        | some p =>
          by_cases he : isExpiredAt p.expires_at now = false
          · have hd : check_for_signal st profiles uid now nsid =
                ((some (.hasPod p p.revealed), none), st) := by
              simp [check_for_signal, hprof, hname', hpod, he]
            rw [hd] at hres
            simp only [Option.some.injEq, LifecycleView.hasPod.injEq] at hres
            obtain ⟨rfl, -⟩ := hres
            simpa [isExpiredAt] using he
          · have hd : check_for_signal st profiles uid now nsid =
                check_signal_phase st profiles uid prof now nsid := by
              simp [check_for_signal, hprof, hname', hpod, if_neg he]
            rw [hd] at hres
            exact absurd hres (fun h2 => hphase h2)
  · intro sig hres
    cases hprof : get_profile profiles uid with
    | none => simp [check_for_signal, hprof] at hres
    | some prof =>
      by_cases hname : nameTruthy prof.name = false
      · simp [check_for_signal, hprof, hname] at hres
      · have hname' : nameTruthy prof.name = true := by
          revert hname
          cases nameTruthy prof.name <;> simp
        have hphase : (check_signal_phase st profiles uid prof now nsid).1.1 =
            some (.hasSignal sig) → ¬ sig.expires_at < now := by
          intro h2
          rcases check_signal_phase_view st profiles uid prof now nsid with
            ⟨sg, hv, _, hu⟩ | hv | ⟨sg, hv⟩ <;> rw [hv] at h2 <;> simp at h2
          · rwa [← h2]
        cases hpod : get_active_pod st uid with
        | none =>
          have hd : check_for_signal st profiles uid now nsid =
              check_signal_phase st profiles uid prof now nsid := by
            simp [check_for_signal, hprof, hname', hpod]
          rw [hd] at hres
          exact hphase hres
        | some p =>
          by_cases he : isExpiredAt p.expires_at now = false
          · have hd : check_for_signal st profiles uid now nsid =
                ((some (.hasPod p p.revealed), none), st) := by
              simp [check_for_signal, hprof, hname', hpod, he]
            rw [hd] at hres
            simp at hres
          · have hd : check_for_signal st profiles uid now nsid =
                check_signal_phase st profiles uid prof now nsid := by
              simp [check_for_signal, hprof, hname', hpod, if_neg he]
            rw [hd] at hres
            exact hphase hres
  · intro prof pod hprof hname hpod hunexp
    have he : isExpiredAt pod.expires_at now = false := by
      simp [isExpiredAt, hunexp]
    simp [check_for_signal, hprof, hname, hpod, he]
  · intro prof sig hprof hname hpods hsig hunexp
    have he : isExpiredAt sig.expires_at now = false := by
      simp [isExpiredAt, hunexp]
    have hsigphase : (check_signal_phase st profiles uid prof now nsid).1.1 =
        some (.hasSignal sig) := by
      simp only [check_signal_phase, hsig, he, if_pos]
    cases hpod : get_active_pod st uid with
    | none =>
      have hd : check_for_signal st profiles uid now nsid =
          check_signal_phase st profiles uid prof now nsid := by
        simp [check_for_signal, hprof, hname, hpod]
      rw [hd]
      exact hsigphase
    | some p =>
      have hexp : isExpiredAt p.expires_at now = true := by
        simp only [isExpiredAt, decide_eq_true_iff]
        exact hpods p hpod
      have hd : check_for_signal st profiles uid now nsid =
          check_signal_phase st profiles uid prof now nsid := by
        simp [check_for_signal, hprof, hname, hpod, hexp]
      rw [hd]
      exact hsigphase

/-- The newer (already expired) pod of the C6 counterexample store. -/
def c6PodNew : Pod :=
  { id := "pN", members := [1], created_at := 100, expires_at := 150,
    revealed := false, signal_id := "sA" }

/-- The older pod of the C6 counterexample store, unexpired at the
observation time 200. -/
def c6PodOld : Pod :=
  { id := "pO", members := [1], created_at := 10, expires_at := 1000000,
    revealed := false, signal_id := "sB" }

/-- The C6 counterexample store: both pods contain user 1; the most
recent one is expired. -/
def c6Store : Store := { signals := [], pods := [c6PodNew, c6PodOld] }

/-- The complete profile of user 1 in the C6 examples. -/
def c6Profile : Profile :=
  { name := some "A", interests := some ["a"],
    personality := some [("introvert_extrovert", 1/2)], vibe_check := none }

/-- The profile store for the C6 examples: user 1 with a complete
profile. -/
def c6Profiles : List (ℕ × Profile) := [(1, c6Profile)]

/-- C6 counterexample: the store contains an unexpired pod for user 1
(podOld, expiring far in the future), yet check_for_signal at time 200
returns no_match - the store query surfaces only the most recent pod,
which is expired, so the claim fails for this store state. -/
theorem C6_counterexample :
    (1 : ℕ) ∈ c6PodOld.members ∧
    c6PodOld ∈ c6Store.pods ∧
    ¬ c6PodOld.expires_at < (200 : ℤ) ∧
    (check_for_signal c6Store c6Profiles 1 200 "sNew").1.1 = some .noMatch := by
  refine ⟨by decide, by decide, by decide, by decide⟩

/-- The single-pod store of the C6 witness. -/
def c6WitnessStore : Store := { signals := [], pods := [c6PodOld] }

/-- C6 witness: when the most recent pod containing the user is
unexpired, check_for_signal surfaces it. -/
theorem C6_witness :
    (check_for_signal c6WitnessStore c6Profiles 1 200 "sNew").1.1 =
      some (.hasPod c6PodOld c6PodOld.revealed) :=
  C6_expiry_gating_amended c6WitnessStore c6Profiles 1 200 "sNew" |>.2.2.1
    c6Profile c6PodOld (by decide) (by decide) (by decide) (by decide)
